import Mathlib

/-!
Shallow embedding of the clueless container library (rust sources:
src/raw_vec.rs, src/vec.rs, src/hashmap.rs, src/linked_list.rs) and
verification of its specification claims.

Machine integers (usize/u64) are modelled as Nat; the only place where the
concrete width matters is the linked list's NIL sentinel (usize::MAX),
modelled as 2^64 - 1.  Fallible/panicking operations return Option or
Except.  Element types are kept generic; the element byte size, which only
influences RawVec::START_CAPACITY, is passed as an explicit Nat parameter.
-/

namespace Clueless

namespace RawVec

/-- Embeds RawVec::START_CAPACITY (src/raw_vec.rs lines 15-19): a match on
mem::size_of::<T>(): 1 byte -> 8 slots, up to 1024 bytes -> 4 slots,
larger -> 1 slot.  `sz` is the element byte size. -/
def START_CAPACITY (sz : Nat) : Nat :=
  if sz = 1 then 8 else if sz ≤ 1024 then 4 else 1

/-- Embeds the capacity computed by RawVec::reserve (src/raw_vec.rs lines
27-31): new_cap = (if cap == 0 then START_CAPACITY else 2 * cap), then
new_cap = new_cap.max(cap + additional); resize is called unconditionally. -/
def reserveCap (sz cap additional : Nat) : Nat :=
  max (if cap = 0 then START_CAPACITY sz else 2 * cap) (cap + additional)

end RawVec

/-- Embeds Vec<T> (src/vec.rs lines 14-17): the initialized live elements
`data` (indices [0, len) of the buffer) plus the buffer capacity. -/
structure Vec (T : Type) where
  data : List T
  cap : Nat
deriving DecidableEq

/-- Embeds the error type IndexNotFound (src/vec.rs line 20). -/
inductive IndexNotFound where
  | mk
deriving DecidableEq

namespace Vec

variable {T : Type}

/-- Embeds Vec::new (src/vec.rs lines 24-26). -/
def new : Vec T := ⟨[], 0⟩

/-- Embeds Vec::len. -/
def len (v : Vec T) : Nat := v.data.length

/-- Embeds RawVec::grow = reserve(1) (src/raw_vec.rs lines 24-26). -/
def grow (sz : Nat) (v : Vec T) : Vec T :=
  { v with cap := RawVec.reserveCap sz v.cap 1 }

/-- Embeds Vec::reserve (src/vec.rs lines 123-125), which forwards to
RawVec::reserve. -/
def reserve (sz : Nat) (v : Vec T) (additional : Nat) : Vec T :=
  { v with cap := RawVec.reserveCap sz v.cap additional }

/-- Embeds Vec::push (src/vec.rs lines 35-41): grow when len == cap, write
at index len, increment len. -/
def push (sz : Nat) (v : Vec T) (val : T) : Vec T :=
  let v1 := if v.data.length = v.cap then grow sz v else v
  { v1 with data := v1.data ++ [val] }

/-- Embeds Vec::try_insert (src/vec.rs lines 58-71): bounds check first
(index > len fails), then grow if full, then shift [index, len) up by one
and write `val` at index; on the live region this is list insertion. -/
def tryInsert (sz : Nat) (v : Vec T) (index : Nat) (val : T) :
    Except IndexNotFound Unit × Vec T :=
  if index > v.data.length then (Except.error IndexNotFound.mk, v)
  else
    let v1 := if v.data.length = v.cap then grow sz v else v
    (Except.ok (), { v1 with data := v1.data.take index ++ val :: v1.data.drop index })

/-- Embeds Vec::try_remove (src/vec.rs lines 75-85): bounds check first
(index >= len fails), then read the element at index and shift
(index, len) down by one; on the live region this is list erasure. -/
def tryRemove (v : Vec T) (index : Nat) : Except IndexNotFound T × Vec T :=
  if h : index < v.data.length then
    (Except.ok (v.data.get ⟨index, h⟩),
      { v with data := v.data.take index ++ v.data.drop (index + 1) })
  else (Except.error IndexNotFound.mk, v)

/-- Embeds Vec::try_swap_remove (src/vec.rs lines 89-98): bounds check
first (index >= len fails), then swap(index, len-1) and pop; the returned
element is the one that was at `index`, and the former last element now
sits at `index`. -/
def trySwapRemove (v : Vec T) (index : Nat) : Except IndexNotFound T × Vec T :=
  if h : index < v.data.length then
    let last := v.data.get ⟨v.data.length - 1, by omega⟩
    (Except.ok (v.data.get ⟨index, h⟩),
      { v with data := (v.data.set index last).take (v.data.length - 1) })
  else (Except.error IndexNotFound.mk, v)

/-- Embeds Vec::shrink_to_fit (src/vec.rs lines 127-129): resize the buffer
to exactly len. -/
def shrinkToFit (v : Vec T) : Vec T := { v with cap := v.data.length }

/-- Embeds Vec::into_boxed_slice (src/vec.rs lines 132-136): shrink to fit,
then hand the allocation over as a boxed slice holding exactly the live
elements. -/
def intoBoxedSlice (v : Vec T) : List T := (shrinkToFit v).data

/-- Embeds the From<Box<[T]>> impl for Vec<T> (src/vec.rs lines 233-240):
cap = slice length, len = slice length, elements taken as-is. -/
def fromBoxedSlice (l : List T) : Vec T := { data := l, cap := l.length }

/-- Embeds the PartialEq impl for Vec<T> (src/vec.rs lines 242-249):
equal lengths and equal element sequences; capacity is not compared. -/
def vecEq (a b : Vec T) : Prop := a.data.length = b.data.length ∧ a.data = b.data

end Vec

/-- Embeds vec::IntoIter<T> (src/vec.rs lines 284-288): the raw allocation
contents, the front cursor `current` and the back cursor `endIdx` (the
source field is named `end`, a Lean keyword). -/
structure IntoIter (T : Type) where
  alloc : List T
  current : Nat
  endIdx : Nat
deriving DecidableEq

namespace Vec

/-- Embeds IntoIterator::into_iter for Vec<T> (src/vec.rs lines 257-263):
current = 0, endIdx = len; the iterator keeps the whole allocation.
`junk` models the contents of the uninitialized slots [len, cap) of the
allocation, which the source never promises anything about. -/
def intoIter (v : Vec T) (junk : List T) : IntoIter T :=
  ⟨v.data ++ junk, 0, v.data.length⟩

end Vec

namespace IntoIter

variable {T : Type}

/-- Embeds IntoIter::next (src/vec.rs lines 293-300): stop when
current == endIdx, else read the slot at `current` and advance `current`.
The outer Option is iterator exhaustion; the inner Option is the unchecked
RawVec::read, none meaning a read outside the allocation (undefined
behaviour in the source). -/
def next (it : IntoIter T) : Option (Option T × IntoIter T) :=
  if it.current = it.endIdx then none
  else some (it.alloc.get? it.current, { it with current := it.current + 1 })

/-- Embeds IntoIter::next_back (src/vec.rs lines 308-315): stop when
current == endIdx, else read the slot at `endIdx` (the source reads
self.end BEFORE decrementing it), then decrement `endIdx`. -/
def nextBack (it : IntoIter T) : Option (Option T × IntoIter T) :=
  if it.current = it.endIdx then none
  else some (it.alloc.get? it.endIdx, { it with endIdx := it.endIdx - 1 })

end IntoIter

/-- Embeds a hash-map chain Bucket<K, V> (src/hashmap.rs lines 238-245): a
singly linked chain of (key, value) nodes, in order from head. -/
abbrev Bucket (K V : Type) := List (K × V)

namespace Bucket

variable {K V : Type} [DecidableEq K]

/-- Embeds Bucket::push_node (src/hashmap.rs lines 267-273): walk `head`
until it reaches a None link, then Option::replace the None with the new
node, returning the replaced contents.  The walk only stops at a None, so
the replaced contents are what stood at the end of the chain. -/
def pushNode (chain : Bucket K V) (kv : K × V) : Option (K × V) × Bucket K V :=
  match chain with
  | [] => (none, [kv])
  | c :: rest =>
    let r := pushNode rest kv
    (r.1, c :: r.2)

/-- Embeds Bucket::push (src/hashmap.rs lines 262-265): box the entry into
a node, push_node it, and surface the prior (key, value) if any. -/
def push (chain : Bucket K V) (k : K) (v : V) : Option (K × V) × Bucket K V :=
  pushNode chain (k, v)

/-- Embeds Bucket::get (src/hashmap.rs lines 275-288): linear scan from the
chain head, returning the value of the first node whose key equals `q`. -/
def get (q : K) : Bucket K V → Option V
  | [] => none
  | (k, v) :: rest => if k = q then some v else get q rest

/-- Embeds Bucket::get_mut (src/hashmap.rs lines 290-303): the same linear
scan as Bucket::get, yielding the first matching node's value. -/
def getMut (q : K) : Bucket K V → Option V
  | [] => none
  | (k, v) :: rest => if k = q then some v else getMut q rest

/-- Embeds Bucket::remove (src/hashmap.rs lines 305-322): scan from the
head and splice out the first node whose key equals `q`, returning its
(key, value). -/
def remove (q : K) : Bucket K V → Option (K × V) × Bucket K V
  | [] => (none, [])
  | (k, v) :: rest =>
    if k = q then (some (k, v), rest)
    else
      let r := remove q rest
      (r.1, (k, v) :: r.2)

end Bucket

/-- Embeds HashMap<K, V, S> (src/hashmap.rs lines 12-15): the bucket array.
The hasher state is modelled by passing the composite hash function
`hash : K -> Nat` (S::hash_one) explicitly to each operation. -/
structure HashMap (K V : Type) where
  buckets : List (Bucket K V)

namespace HashMap

variable {K V : Type} [DecidableEq K]

/-- Embeds HashMap::MAX_BUCKET_LEN = 6 (src/hashmap.rs line 25). -/
def MAX_BUCKET_LEN : Nat := 6

/-- Embeds HashMap::START_CAPACITY = 8 (src/hashmap.rs line 26). -/
def START_CAPACITY : Nat := 8

/-- Embeds HashMap::new (src/hashmap.rs lines 19-21): an empty bucket
array. -/
def new : HashMap K V := ⟨[]⟩

/-- Embeds HashMap::len (src/hashmap.rs lines 29-31): the sum of all
bucket chain lengths. -/
def len (m : HashMap K V) : Nat := (m.buckets.map List.length).sum

/-- Embeds HashMap::capacity (src/hashmap.rs lines 34-36): the number of
buckets. -/
def capacity (m : HashMap K V) : Nat := m.buckets.length

/-- Embeds HashMap::get_bucket_unchecked (src/hashmap.rs lines 139-147):
hash_one(key) % buckets.len(), both as 64-bit values in the source. -/
def get_bucket_unchecked (hash : K → Nat) (m : HashMap K V) (q : K) : Nat :=
  hash q % m.buckets.length

/-- Embeds HashMap::get_bucket (src/hashmap.rs lines 127-136): return None
when the map holds no entries (is_empty, i.e. len() == 0), otherwise the
bucket index; the modular reduction is only evaluated in the nonempty
branch. -/
def get_bucket (hash : K → Nat) (m : HashMap K V) (q : K) : Option Nat :=
  if m.len = 0 then none else some (get_bucket_unchecked hash m q)

/-- Embeds HashMap::grow (src/hashmap.rs lines 149-160): an empty bucket
array becomes START_CAPACITY fresh buckets; otherwise allocate twice as
many fresh buckets and push_node every node of the old array (bucket
order, chain order) into its recomputed bucket. -/
def grow (hash : K → Nat) (m : HashMap K V) : HashMap K V :=
  if m.buckets.length = 0 then ⟨List.replicate START_CAPACITY []⟩
  else
    ⟨m.buckets.flatten.foldl
      (fun acc kv =>
        let b := hash kv.1 % acc.length
        acc.set b (Bucket.pushNode (acc.getD b []) kv).2)
      (List.replicate (2 * m.buckets.length) [])⟩

/-- Embeds HashMap::insert (src/hashmap.rs lines 71-81): grow first if the
bucket array is empty, push into bucket hash % buckets.len(), then grow
again if that bucket's chain length reached MAX_BUCKET_LEN; returns the
prior entry surfaced by Bucket::push. -/
def insert (hash : K → Nat) (m0 : HashMap K V) (k : K) (v : V) :
    Option (K × V) × HashMap K V :=
  let m := if m0.buckets.length = 0 then grow hash m0 else m0
  let b := get_bucket_unchecked hash m k
  let pr := Bucket.push (m.buckets.getD b []) k v
  let m1 : HashMap K V := ⟨m.buckets.set b pr.2⟩
  let m2 := if (m1.buckets.getD b []).length = MAX_BUCKET_LEN then grow hash m1 else m1
  (pr.1, m2)

/-- Embeds HashMap::get (src/hashmap.rs lines 83-90): get_bucket, then scan
that bucket's chain. -/
def get (hash : K → Nat) (m : HashMap K V) (q : K) : Option V :=
  match get_bucket hash m q with
  | none => none
  | some b => Bucket.get q (m.buckets.getD b [])

/-- Embeds HashMap::get_mut (src/hashmap.rs lines 92-99): get_bucket, then
Bucket::get_mut on that bucket's chain. -/
def getMut (hash : K → Nat) (m : HashMap K V) (q : K) : Option V :=
  match get_bucket hash m q with
  | none => none
  | some b => Bucket.getMut q (m.buckets.getD b [])

/-- Embeds HashMap::remove_entry (src/hashmap.rs lines 109-116): get_bucket
(None on an entry-free map, leaving the map untouched), then splice the
first matching node out of that bucket. -/
def remove_entry (hash : K → Nat) (m : HashMap K V) (q : K) :
    Option (K × V) × HashMap K V :=
  match get_bucket hash m q with
  | none => (none, m)
  | some b =>
    let r := Bucket.remove q (m.buckets.getD b [])
    (r.1, ⟨m.buckets.set b r.2⟩)

/-- Embeds HashMap::remove (src/hashmap.rs lines 101-107): remove_entry
mapped to the value. -/
def remove (hash : K → Nat) (m : HashMap K V) (q : K) : Option V × HashMap K V :=
  let r := remove_entry hash m q
  (r.1.map Prod.snd, r.2)

/-- Embeds HashMap::contains_key (src/hashmap.rs lines 118-124):
get(key).is_some(). -/
def contains_key (hash : K → Nat) (m : HashMap K V) (q : K) : Bool :=
  (get hash m q).isSome

end HashMap

/-- Embeds Index::NIL for the default Idx = usize (src/linked_list.rs
lines 38-46): usize::MAX, i.e. 2^64 - 1 on a 64-bit platform. -/
def NIL : Nat := 2 ^ 64 - 1

/-- Embeds linked_list::Node<T, Idx> (src/linked_list.rs lines 369-374). -/
structure LNode (T : Type) where
  val : T
  next : Nat
  prev : Nat
deriving DecidableEq

/-- Embeds LinkedList<T, Idx> (src/linked_list.rs lines 48-53): the dense
node storage plus the head and tail indices. -/
structure LinkedList (T : Type) where
  buf : List (LNode T)
  head : Nat
  tail : Nat
deriving DecidableEq

namespace LinkedList

variable {T : Type}

/-- Embeds LinkedList::new (src/linked_list.rs lines 60-62). -/
def new : LinkedList T := ⟨[], NIL, NIL⟩

/-- Embeds the guarded update `if let Some(n) = self.buf.get_mut(i)
{ n.next = nx }` used by remove_node: out-of-range indices (NIL included)
leave the storage untouched. -/
def setNextAt (buf : List (LNode T)) (i nx : Nat) : List (LNode T) :=
  match buf.get? i with
  | none => buf
  | some nd => buf.set i { nd with next := nx }

/-- Embeds the guarded update of a node's prev field via Vec::get_mut. -/
def setPrevAt (buf : List (LNode T)) (i pv : Nat) : List (LNode T) :=
  match buf.get? i with
  | none => buf
  | some nd => buf.set i { nd with prev := pv }

/-- Embeds the direct indexed assignment `self.buf[i].next = nx`: none
models the index-out-of-bounds panic. -/
def setNextPanicking (buf : List (LNode T)) (i nx : Nat) : Option (List (LNode T)) :=
  match buf.get? i with
  | none => none
  | some nd => some (buf.set i { nd with next := nx })

/-- Embeds the direct indexed assignment `self.buf[i].prev = pv`: none
models the index-out-of-bounds panic. -/
def setPrevPanicking (buf : List (LNode T)) (i pv : Nat) : Option (List (LNode T)) :=
  match buf.get? i with
  | none => none
  | some nd => some (buf.set i { nd with prev := pv })

/-- Embeds Vec::swap_remove as used on the node storage (src/vec.rs lines
89-98): swap index with the last slot, pop, return the element that was at
`index`; none models the out-of-range panic. -/
def swapRemove (buf : List (LNode T)) (i : Nat) : Option (LNode T × List (LNode T)) :=
  if h : i < buf.length then
    let last := buf.get ⟨buf.length - 1, by omega⟩
    some (buf.get ⟨i, h⟩, (buf.set i last).take (buf.length - 1))
  else none

/-- Embeds LinkedList::remove_node (src/linked_list.rs lines 121-140):
capture the physical last node's prev/next, repoint them (via guarded
get_mut) at `ptr`, swap_remove slot `ptr`, then repoint head/tail if they
named the old last slot (compared against the shrunk length).  The initial
indexing `self.buf[self.len() - 1]` panics (none) on empty storage. -/
def remove_node (s : LinkedList T) (ptr : Nat) : Option (LNode T × LinkedList T) :=
  match s.buf.getLast? with
  | none => none
  | some e =>
    let buf1 := setNextAt s.buf e.prev ptr
    let buf2 := setPrevAt buf1 e.next ptr
    match swapRemove buf2 ptr with
    | none => none
    | some (node, buf3) =>
      let h2 := if s.head = buf3.length then ptr else s.head
      let t2 := if s.tail = buf3.length then ptr else s.tail
      some (node, ⟨buf3, h2, t2⟩)

/-- Embeds LinkedList::push_buf (src/linked_list.rs lines 141-145): push
the node onto the storage and return its index. -/
def push_buf (s : LinkedList T) (node : LNode T) : Nat × LinkedList T :=
  (s.buf.length, { s with buf := s.buf ++ [node] })

/-- Embeds LinkedList::push_back (src/linked_list.rs lines 63-72): push a
node with prev = tail, next = NIL; adopt it as head if head is NIL; patch
the old tail's next by direct indexing (panics if tail is a stale
out-of-range index); set tail to the new index. -/
def push_back (s0 : LinkedList T) (val : T) : Option (LinkedList T) :=
  let p := push_buf s0 { val := val, next := NIL, prev := s0.tail }
  let ptr := p.1
  let s1 := p.2
  let s2 := if s1.head = NIL then { s1 with head := ptr } else s1
  if s2.tail = NIL then some { s2 with tail := ptr }
  else
    match setNextPanicking s2.buf s2.tail ptr with
    | none => none
    | some buf => some { s2 with buf := buf, tail := ptr }

/-- Embeds LinkedList::push_front (src/linked_list.rs lines 73-82): push a
node with next = head, prev = NIL; adopt it as tail if tail is NIL; patch
the old head's prev by direct indexing; set head to the new index. -/
def push_front (s0 : LinkedList T) (val : T) : Option (LinkedList T) :=
  let p := push_buf s0 { val := val, next := s0.head, prev := NIL }
  let ptr := p.1
  let s1 := p.2
  let s2 := if s1.tail = NIL then { s1 with tail := ptr } else s1
  if s2.head = NIL then some { s2 with head := ptr }
  else
    match setPrevPanicking s2.buf s2.head ptr with
    | none => none
    | some buf => some { s2 with buf := buf, head := ptr }

/-- Embeds LinkedList::pop_back (src/linked_list.rs lines 83-93): None on
an empty list; otherwise remove_node(tail), set tail to the removed node's
prev, and if that is not NIL clear that node's next by direct indexing
(which panics when the index is stale). -/
def pop_back (s : LinkedList T) : Option (Option T × LinkedList T) :=
  if s.buf.length = 0 then some (none, s)
  else
    match remove_node s s.tail with
    | none => none
    | some (node, s1) =>
      let s2 := { s1 with tail := node.prev }
      if s2.tail = NIL then some (some node.val, s2)
      else
        match setNextPanicking s2.buf s2.tail NIL with
        | none => none
        | some buf => some (some node.val, { s2 with buf := buf })

/-- Embeds LinkedList::pop_front (src/linked_list.rs lines 94-104): None on
an empty list; otherwise remove_node(head), set head to the removed node's
next, and if that is not NIL clear that node's prev by direct indexing. -/
def pop_front (s : LinkedList T) : Option (Option T × LinkedList T) :=
  if s.buf.length = 0 then some (none, s)
  else
    match remove_node s s.head with
    | none => none
    | some (node, s1) =>
      let s2 := { s1 with head := node.next }
      if s2.head = NIL then some (some node.val, s2)
      else
        match setPrevPanicking s2.buf s2.head NIL with
        | none => none
        | some buf => some (some node.val, { s2 with buf := buf })

end LinkedList

/-- An operation of the LinkedList deque interface. -/
inductive Op (T : Type) where
  | pushBack (v : T)
  | pushFront (v : T)
  | popBack
  | popFront
deriving DecidableEq

namespace LinkedList

variable {T : Type}

/-- Runs one deque operation; none models a panic inside the operation.
Pops report their returned Option value, pushes report none. -/
def step (s : LinkedList T) : Op T → Option (LinkedList T × Option T)
  | .pushBack v => (push_back s v).map fun s2 => (s2, none)
  | .pushFront v => (push_front s v).map fun s2 => (s2, none)
  | .popBack => (pop_back s).map fun r => (r.2, r.1)
  | .popFront => (pop_front s).map fun r => (r.2, r.1)

/-- Runs a sequence of deque operations from a starting state, collecting
every operation's reported value; none as soon as any operation panics. -/
def runOps (s : LinkedList T) : List (Op T) → Option (LinkedList T × List (Option T))
  | [] => some (s, [])
  | op :: rest =>
    match step s op with
    | none => none
    | some (s2, out) =>
      match runOps s2 rest with
      | none => none
      | some (s3, outs) => some (s3, out :: outs)

end LinkedList

/-- A constant hash function, a legal instantiation of the S: BuildHasher
parameter of HashMap (every key lands in bucket 0). -/
def constHash : Nat → Nat := fun _ => 0

/-- The map obtained by inserting key 7 with value 1 and then key 7 again
with value 2 into a fresh map, together with the second insert's returned
prior entry. -/
def dupMap : Option (Nat × Nat) × HashMap Nat Nat :=
  HashMap.insert constHash (HashMap.insert constHash HashMap.new 7 1).2 7 2

/-!  Theorems settling the claims. -/

/-- C1: the claim says inserting a key that is already present replaces the
entry, returns the prior (key, value) pair and leaves len() unchanged.  The
code's Bucket::push_node walks every chain link to its None end and
replaces that None, so it returns None unconditionally and appends a
duplicate node: inserting key 7 twice returns None (not some (7, 1)) and
len() becomes 2 (not 1). -/
theorem insert_existing_key_appends_duplicate :
    dupMap.1 = none ∧ dupMap.2.len = 2 ∧
    dupMap.1 ≠ some (7, 1) ∧ dupMap.2.len ≠ 1 := by
  decide

/-- C2: the claim says get(k) returns the value of the most recent insert
of k.  After inserting (7, 1) then (7, 2), both entries sit in the same
chain in insertion order and Bucket::get returns the first match, so
get(7) yields the oldest value 1, not the most recent value 2. -/
theorem get_returns_oldest_value :
    HashMap.get constHash dupMap.2 7 = some 1 ∧
    HashMap.get constHash dupMap.2 7 ≠ some 2 := by
  decide

/-- C3: the claim says the first next_back() on a non-empty vector's owning
iterator returns the last element, reading only live slots in [0, len).
The code reads slot self.end BEFORE decrementing, i.e. slot len: for the
vector [10, 20, 30] with capacity 4 whose uninitialized slot 3 holds junk
99, next_back yields the junk 99 rather than 30, and with capacity 3 the
read at index 3 falls outside the allocation entirely (inner none). -/
theorem nextBack_reads_past_live_range :
    IntoIter.nextBack (Vec.intoIter (⟨[10, 20, 30], 4⟩ : Vec Nat) [99]) =
      some (some 99, ⟨[10, 20, 30, 99], 0, 2⟩) ∧
    [10, 20, 30].getLast? = some 30 ∧ (some 99 : Option Nat) ≠ some 30 ∧
    IntoIter.nextBack (Vec.intoIter (⟨[10, 20, 30], 3⟩ : Vec Nat) []) =
      some (none, ⟨[10, 20, 30], 0, 2⟩) := by
  decide

/-- C4: the claim's concrete scenario says push_back(1), push_back(2),
push_back(3) followed by three pop_front() calls yields 1, 2, 3 and leaves
the list empty with head and tail equal to the NIL sentinel.  The code
yields 1, 2, 3 and empties the storage, and pop_front resets head to NIL,
but it never resets tail: tail is left as the stale slot index 0. -/
theorem scenario_leaves_stale_tail :
    LinkedList.runOps (LinkedList.new (T := Nat))
        [Op.pushBack 1, Op.pushBack 2, Op.pushBack 3,
         Op.popFront, Op.popFront, Op.popFront] =
      some (⟨[], NIL, 0⟩, [none, none, none, some 1, some 2, some 3]) ∧
    (0 : Nat) ≠ NIL := by
  decide

/-- C5: the claim says every sequence of pushes and pops leaves the backing
storage dense with ordered and unordered iteration agreeing.  Because
pop_front leaves tail as a stale index after emptying the list, a
subsequent push_back links the new node to itself, and the next pop_back
sets tail from that node's corrupt prev pointer and then indexes the now
empty storage at slot 0: the operation panics, so the sequence
[push_back 1, pop_front, push_back 2, pop_back] never reaches a dense
after-state at all. -/
theorem pop_back_oob_after_stale_tail :
    LinkedList.runOps (LinkedList.new (T := Nat))
        [Op.pushBack 1, Op.popFront, Op.pushBack 2, Op.popBack] = none := by
  decide

/-- C6: try_insert fails with IndexNotFound exactly when index > len,
try_remove and try_swap_remove fail exactly when index >= len, and every
failing call leaves the vector (length, capacity and elements) untouched:
each of the three checks its bound before mutating anything. -/
theorem try_ops_fail_iff_out_of_range {T : Type} (sz : Nat) (v : Vec T)
    (i : Nat) (x : T) :
    ((Vec.tryInsert sz v i x).1 = Except.error IndexNotFound.mk ↔ v.data.length < i) ∧
    (v.data.length < i → (Vec.tryInsert sz v i x).2 = v) ∧
    ((Vec.tryRemove v i).1 = Except.error IndexNotFound.mk ↔ v.data.length ≤ i) ∧
    (v.data.length ≤ i → (Vec.tryRemove v i).2 = v) ∧
    ((Vec.trySwapRemove v i).1 = Except.error IndexNotFound.mk ↔ v.data.length ≤ i) ∧
    (v.data.length ≤ i → (Vec.trySwapRemove v i).2 = v) := by
  refine ⟨?_, ?_, ?_, ?_, ?_, ?_⟩
  · simp only [Vec.tryInsert]
    split
    · simpa using by omega
    · simp only [Prod.fst]
      constructor
      · intro hc
        exact absurd hc (by simp)
      · intro hlt
        omega
  · intro hlt
    simp [Vec.tryInsert, hlt]
  · simp only [Vec.tryRemove]
    split
    · simp only [Prod.fst]
      constructor
      · intro hc
        exact absurd hc (by simp)
      · intro hle
        omega
    · simpa using by omega
  · intro hle
    simp [Vec.tryRemove, Nat.not_lt.mpr hle]
  · simp only [Vec.trySwapRemove]
    split
    · simp only [Prod.fst]
      constructor
      · intro hc
        exact absurd hc (by simp)
      · intro hle
        omega
    · simpa using by omega
  · intro hle
    simp [Vec.trySwapRemove, Nat.not_lt.mpr hle]

/-- C6 witness: try_insert at index 3 on a length-1 vector fails and leaves
the vector untouched. -/
theorem try_ops_fail_iff_out_of_range_witness :
    (Vec.tryInsert 4 (⟨[5], 4⟩ : Vec Nat) 3 9).2 = ⟨[5], 4⟩ :=
  (try_ops_fail_iff_out_of_range 4 ⟨[5], 4⟩ 3 9).2.1 (by decide)

/-- C7 counterexample: the claim says reserve(additional) is a no-op when
capacity already covers len + additional.  A vector of length 1 and
capacity 4 satisfies 4 >= 1 + 1, yet reserve(1) reallocates to
max(2 * 4, 4 + 1) = 8: the capacity changes. -/
theorem reserve_noop_counterexample :
    (⟨[0], 4⟩ : Vec Nat).data.length + 1 ≤ (⟨[0], 4⟩ : Vec Nat).cap ∧
    (Vec.reserve 4 (⟨[0], 4⟩ : Vec Nat) 1).cap = 8 ∧ (8 : Nat) ≠ 4 := by
  decide

/-- C7 amended: reserve(additional) is never a no-op, even when the
capacity already covers len + additional: RawVec::reserve has no
sufficiency check and unconditionally resizes, to
max(START_CAPACITY, additional) from capacity zero and to
max(2 * cap, cap + additional) from nonzero capacity, so the capacity
strictly increases. -/
theorem reserve_always_regrows {T : Type} (sz : Nat) (v : Vec T)
    (additional : Nat) (hsuff : v.data.length + additional ≤ v.cap) :
    (Vec.reserve sz v additional).cap =
      max (if v.cap = 0 then RawVec.START_CAPACITY sz else 2 * v.cap)
        (v.cap + additional) ∧
    v.cap < (Vec.reserve sz v additional).cap := by
  have hS : 1 ≤ RawVec.START_CAPACITY sz := by
    unfold RawVec.START_CAPACITY
    split_ifs <;> omega
  refine ⟨rfl, ?_⟩
  simp only [Vec.reserve, RawVec.reserveCap]
  split_ifs with h <;> omega

/-- C7 witness: reserving 1 more slot on a length-1, capacity-4 vector
grows the capacity to max(8, 5) even though 4 slots already sufficed. -/
theorem reserve_always_regrows_witness :
    (Vec.reserve 4 (⟨[0], 4⟩ : Vec Nat) 1).cap = max (2 * 4) (4 + 1) ∧
    4 < (Vec.reserve 4 (⟨[0], 4⟩ : Vec Nat) 1).cap :=
  reserve_always_regrows 4 ⟨[0], 4⟩ 1 (by decide)

/-- C8: growing a buffer of nonzero capacity c via reserve(additional)
yields capacity max(2 * c, c + additional); growing from capacity zero
yields at least START_CAPACITY, and that fixed starting capacity is 8 for
1-byte elements, 4 up to 1024-byte elements, and 1 beyond, so very small
element types start with more slots than large ones. -/
theorem reserve_growth_policy (sz cap additional : Nat) (h : cap ≠ 0) :
    RawVec.reserveCap sz cap additional = max (2 * cap) (cap + additional) ∧
    (∀ a, RawVec.START_CAPACITY sz ≤ RawVec.reserveCap sz 0 a) ∧
    RawVec.START_CAPACITY 1 = 8 ∧ RawVec.START_CAPACITY 1024 = 4 ∧
    RawVec.START_CAPACITY 1025 = 1 := by
  refine ⟨?_, ?_, by decide, by decide, by decide⟩
  · simp [RawVec.reserveCap, h]
  · intro a
    simp [RawVec.reserveCap]

/-- C8 witness: reserve(10) on a capacity-4 buffer yields
max(8, 14) = 14. -/
theorem reserve_growth_policy_witness :
    RawVec.reserveCap 4 4 10 = max (2 * 4) (4 + 10) :=
  (reserve_growth_policy 4 4 10 (by decide)).1

/-- C9: converting a non-empty vector into a boxed slice (shrink to fit,
then hand over exactly the live elements) and back (capacity and length
both the slice length) yields a vector with the same length and the same
elements in the same order, equal under the source's PartialEq (which
compares length and elements, not capacity). -/
theorem boxed_slice_roundtrip {T : Type} (v : Vec T) (_h : v.data ≠ []) :
    (Vec.fromBoxedSlice (Vec.intoBoxedSlice v)).data = v.data ∧
    (Vec.fromBoxedSlice (Vec.intoBoxedSlice v)).len = v.len ∧
    Vec.vecEq (Vec.fromBoxedSlice (Vec.intoBoxedSlice v)) v :=
  ⟨rfl, rfl, rfl, rfl⟩

/-- C9 witness: the roundtrip on the vector [1, 2] with capacity 5. -/
theorem boxed_slice_roundtrip_witness :
    (Vec.fromBoxedSlice (Vec.intoBoxedSlice (⟨[1, 2], 5⟩ : Vec Nat))).data = [1, 2] ∧
    (Vec.fromBoxedSlice (Vec.intoBoxedSlice (⟨[1, 2], 5⟩ : Vec Nat))).len =
      (⟨[1, 2], 5⟩ : Vec Nat).len ∧
    Vec.vecEq (Vec.fromBoxedSlice (Vec.intoBoxedSlice (⟨[1, 2], 5⟩ : Vec Nat)))
      ⟨[1, 2], 5⟩ :=
  boxed_slice_roundtrip ⟨[1, 2], 5⟩ (by decide)

/-- C10: on a map holding no entries (len() == 0, whatever the bucket
count, including the freshly constructed map with zero buckets), get,
get_mut, remove, remove_entry and contains_key all return the absent
result and leave the map untouched, and get_bucket returns None before
ever reaching the modular reduction, so no lookup divides by a zero bucket
count. -/
theorem empty_map_lookups_absent {K V : Type} [DecidableEq K]
    (hash : K → Nat) (m : HashMap K V) (q : K) (h : m.len = 0) :
    HashMap.get hash m q = none ∧
    HashMap.getMut hash m q = none ∧
    HashMap.remove hash m q = (none, m) ∧
    HashMap.remove_entry hash m q = (none, m) ∧
    HashMap.contains_key hash m q = false ∧
    HashMap.get_bucket hash m q = none := by
  have hb : HashMap.get_bucket hash m q = none := by
    simp [HashMap.get_bucket, h]
  refine ⟨?_, ?_, ?_, ?_, ?_, hb⟩ <;>
    simp [HashMap.get, HashMap.getMut, HashMap.remove, HashMap.remove_entry,
      HashMap.contains_key, hb]

/-- C10 witness: every lookup on the freshly constructed map (zero
buckets) is absent and performs no bucket computation. -/
theorem empty_map_lookups_absent_witness :
    HashMap.get constHash (HashMap.new (K := Nat) (V := Nat)) 5 = none ∧
    HashMap.getMut constHash (HashMap.new (K := Nat) (V := Nat)) 5 = none ∧
    HashMap.remove constHash (HashMap.new (K := Nat) (V := Nat)) 5 =
      (none, HashMap.new) ∧
    HashMap.remove_entry constHash (HashMap.new (K := Nat) (V := Nat)) 5 =
      (none, HashMap.new) ∧
    HashMap.contains_key constHash (HashMap.new (K := Nat) (V := Nat)) 5 = false ∧
    HashMap.get_bucket constHash (HashMap.new (K := Nat) (V := Nat)) 5 = none :=
  empty_map_lookups_absent constHash HashMap.new 5 (by decide)

end Clueless
